import Mathlib

/-!
Shallow embedding of the railway-terminus repository (an Express service that
fetches Railway GraphQL data, filters it client-side, and renders a dashboard).

The embedding follows the source files:
  * `src/query-railway.js` — `RailwayClient.filterData`, `filterProjectsData`,
    `filterDeploymentsData`, `filterVolumesData`, `fetchDashboardData`;
  * `src/generate-html.js` — `DashboardGenerator.extractEventAction`,
    `extractComprehensiveData` (deployment lookup, event-log sort),
    `generateComprehensiveHTML` (subtitle / service-name rendering);
  * `server.js` — `authenticateToken` middleware and the route table;
  * `src/config/event-logs.js` — the event-log display configuration.

JavaScript objects are duck-typed; fields the code tests for presence are
modelled as `Option`.  JS string falsiness (`undefined`, `null`, `""`) is
modelled by `optActive`.  Timestamps compared via `new Date(x)` are modelled
as parsed numeric values (`Nat`); the claims under study only involve
parseable timestamps.  Exceptions are modelled with `Except`/`Option`.
-/

namespace RailwayTerminus

/-- JS truthiness of an optional string: `undefined`/`null`/`""` are falsy.
`optActive o = some s` exactly when the JS value is a truthy string `s`. -/
def optActive : Option String → Option String
  | none => none
  | some s => if s = "" then none else some s

/-- GraphQL connection wrapper `{edges: [...]}`. -/
structure Connection (α : Type) where
  edges : List α
  deriving Repr, DecidableEq

/-- Edge list of a possibly-absent connection (`conn?.edges` or `[]`). -/
def optEdges {α : Type} : Option (Connection α) → List α
  | none => []
  | some c => c.edges

/-! ## Projects / services / environments tree (`filterData`, `filterProjectsData`) -/

structure EnvironmentNode where
  id : String
  name : String
  deriving Repr, DecidableEq

structure DeploymentNode where
  id : String
  status : String
  createdAt : Nat
  environmentId : String
  environment : Option EnvironmentNode
  deriving Repr, DecidableEq

structure DeploymentEdge where
  node : DeploymentNode
  deriving Repr, DecidableEq

structure ServiceNode where
  id : String
  name : String
  deployments : Option (Connection DeploymentEdge)
  deriving Repr, DecidableEq

structure ServiceEdge where
  node : ServiceNode
  deriving Repr, DecidableEq

structure EnvEdge where
  node : EnvironmentNode
  deriving Repr, DecidableEq

structure ProjectNode where
  id : String
  name : String
  services : Option (Connection ServiceEdge)
  environments : Option (Connection EnvEdge)
  deriving Repr, DecidableEq

structure ProjectEdge where
  node : ProjectNode
  deriving Repr, DecidableEq

structure Team where
  projects : Connection ProjectEdge
  deriving Repr, DecidableEq

structure Workspace where
  name : String
  team : Team
  deriving Repr, DecidableEq

structure Me where
  workspaces : List Workspace
  deriving Repr, DecidableEq

structure ProjectsData where
  me : Me
  deriving Repr, DecidableEq

/-- `{projectId, serviceId, environmentId}` filter object (all fields optional). -/
structure Filters where
  projectId : Option String
  serviceId : Option String
  environmentId : Option String
  deriving Repr, DecidableEq

/-! ### `RailwayClient.filterData` (query-railway.js lines 68-156) -/

/-- Deployment-edge predicate of `filterData`:
`if (environmentId && deployment.environment && deployment.environment.name !== environmentId) return false`. -/
def keepDeploymentEdge (eid : Option String) (de : DeploymentEdge) : Bool :=
  match eid, de.node.environment with
  | some e, some env => env.name == e
  | _, _ => true

/-- Service-node rewrite of `filterData`: filter the deployment edges when the
`deployments` connection is present. -/
def filterSvcNode (eid : Option String) (n : ServiceNode) : ServiceNode :=
  { n with deployments :=
      n.deployments.map fun c => { c with edges := c.edges.filter (keepDeploymentEdge eid) } }

/-- Service-edge predicate of `filterData`:
`if (serviceId && service.id !== serviceId) return false`. -/
def keepServiceEdge (sid : Option String) (se : ServiceEdge) : Bool :=
  match sid with
  | some s => se.node.id == s
  | none => true

/-- Environment-edge predicate of `filterData`:
`if (environmentId && environment.name !== environmentId && environment.id !== environmentId) return false`. -/
def keepEnvEdge (eid : Option String) (ee : EnvEdge) : Bool :=
  match eid with
  | some e => ee.node.name == e || ee.node.id == e
  | none => true

/-- Project-node rewrite of `filterData`: filter+map services, filter environments. -/
def filterProjNode (sid eid : Option String) (n : ProjectNode) : ProjectNode :=
  { n with
    services := n.services.map fun c =>
      { c with edges := (c.edges.filter (keepServiceEdge sid)).map fun se =>
          { se with node := filterSvcNode eid se.node } },
    environments := n.environments.map fun c =>
      { c with edges := c.edges.filter (keepEnvEdge eid) } }

/-- Project-edge predicate of `filterData`:
`if (projectId && project.id !== projectId) return false`. -/
def keepProjEdge (pid : Option String) (pe : ProjectEdge) : Bool :=
  match pid with
  | some p => pe.node.id == p
  | none => true

/-- Workspace rewrite of `filterData`. -/
def filterWorkspace (pid sid eid : Option String) (w : Workspace) : Workspace :=
  { w with team := { w.team with projects :=
      { w.team.projects with edges :=
          (w.team.projects.edges.filter (keepProjEdge pid)).map fun pe =>
            { pe with node := filterProjNode sid eid pe.node } } } }

/-- `RailwayClient.filterData(data, filters)`.  The JS shape guard
(`!data || !data.me || !data.me.workspaces || !filters`) is satisfied by the
typed model; the remaining guard is the no-active-filter early return. -/
def filterData (d : ProjectsData) (f : Filters) : ProjectsData :=
  let pid := optActive f.projectId
  let sid := optActive f.serviceId
  let eid := optActive f.environmentId
  if pid.isNone && sid.isNone && eid.isNone then d
  else
    { d with me := { d.me with workspaces := d.me.workspaces.map (filterWorkspace pid sid eid) } }

/-! ### `RailwayClient.filterProjectsData` (query-railway.js lines 159-210) -/

/-- Project-node rewrite of `filterProjectsData`: only services are filtered
(by service id); deployments and environments are untouched. -/
def filterProjectsNode (sid : Option String) (n : ProjectNode) : ProjectNode :=
  { n with services := n.services.map fun c =>
      { c with edges := c.edges.filter (keepServiceEdge sid) } }

/-- `RailwayClient.filterProjectsData(data, filters)`: uses only `projectId`
and `serviceId`; `environmentId` is ignored by this method. -/
def filterProjectsData (d : ProjectsData) (f : Filters) : ProjectsData :=
  let pid := optActive f.projectId
  let sid := optActive f.serviceId
  if pid.isNone && sid.isNone then d
  else
    { d with me := { d.me with workspaces := d.me.workspaces.map fun w =>
        { w with team := { w.team with projects :=
            { w.team.projects with edges :=
                (w.team.projects.edges.filter (keepProjEdge pid)).map fun pe =>
                  { pe with node := filterProjectsNode sid pe.node } } } } } }

/-! ## Flat deployments data (`filterDeploymentsData`, query-railway.js lines 212-246) -/

structure FlatDeployment where
  id : String
  projectId : String
  serviceId : String
  environmentId : String
  createdAt : Nat
  deriving Repr, DecidableEq

structure FlatDeploymentEdge where
  node : FlatDeployment
  deriving Repr, DecidableEq

structure DeploymentsData where
  deployments : Connection FlatDeploymentEdge
  deriving Repr, DecidableEq

/-- `RailwayClient.filterDeploymentsData(data, filters)`. -/
def filterDeploymentsData (d : DeploymentsData) (f : Filters) : DeploymentsData :=
  let pid := optActive f.projectId
  let sid := optActive f.serviceId
  let eid := optActive f.environmentId
  if pid.isNone && sid.isNone && eid.isNone then d
  else
    let keep := fun (de : FlatDeploymentEdge) =>
      (match pid with | some p => de.node.projectId == p | none => true) &&
      (match sid with | some s => de.node.serviceId == s | none => true) &&
      (match eid with | some e => de.node.environmentId == e | none => true)
    { d with deployments := { d.deployments with edges := d.deployments.edges.filter keep } }

/-! ## Volumes tree (`filterVolumesData`, query-railway.js lines 248-394) -/

structure ServiceRef where
  id : String
  name : String
  deriving Repr, DecidableEq

structure EnvRef where
  id : String
  deriving Repr, DecidableEq

structure VolumeInstance where
  serviceId : Option String
  service : Option ServiceRef
  environmentId : Option String
  environment : Option EnvRef
  deriving Repr, DecidableEq

structure InstanceEdge where
  node : Option VolumeInstance
  deriving Repr, DecidableEq

structure VolumeNode where
  id : String
  volumeInstances : Option (Connection InstanceEdge)
  deriving Repr, DecidableEq

structure VolumeEdge where
  node : Option VolumeNode
  deriving Repr, DecidableEq

structure VolEnvNode where
  id : String
  name : String
  volumeInstances : Option (Connection InstanceEdge)
  deriving Repr, DecidableEq

structure VolEnvEdge where
  node : Option VolEnvNode
  deriving Repr, DecidableEq

structure VolProjectNode where
  id : String
  volumes : Option (Connection VolumeEdge)
  environments : Option (Connection VolEnvEdge)
  deriving Repr, DecidableEq

structure VolProjectEdge where
  node : Option VolProjectNode
  deriving Repr, DecidableEq

structure VolTeam where
  projects : Option (Connection VolProjectEdge)
  deriving Repr, DecidableEq

structure VolWorkspace where
  projects : Option (Connection VolProjectEdge)
  team : Option VolTeam
  deriving Repr, DecidableEq

structure VolMe where
  workspaces : List VolWorkspace
  deriving Repr, DecidableEq

structure VolumesData where
  me : VolMe
  deriving Repr, DecidableEq

/-- `matchesEnvironment` closure: true when no `environmentId` filter, or the
instance matches by direct `environmentId` field or nested `environment.id`
(both checked for JS truthiness first). -/
def matchesEnvironment (eid : Option String) (inst : VolumeInstance) : Bool :=
  match eid with
  | none => true
  | some e =>
    (match inst.environmentId with | some v => v != "" && v == e | none => false) ||
    (match inst.environment with | some r => r.id != "" && r.id == e | none => false)

/-- `matchesService` closure: true when no `serviceId` filter, or the instance
matches by direct `serviceId` field or nested `service.id`. -/
def matchesService (sid : Option String) (inst : VolumeInstance) : Bool :=
  match sid with
  | none => true
  | some s =>
    (match inst.serviceId with | some v => v != "" && v == s | none => false) ||
    (match inst.service with | some r => r.id != "" && r.id == s | none => false)

/-- `filterInstanceConnection` closure: drop edges without a node or whose
instance fails the environment/service match; absent connections pass through. -/
def filterInstanceConnection (sid eid : Option String) :
    Option (Connection InstanceEdge) → Option (Connection InstanceEdge)
  | none => none
  | some c => some { c with edges := c.edges.filter fun e =>
      match e.node with
      | none => false
      | some inst => matchesEnvironment eid inst && matchesService sid inst }

/-- `!filteredInstances?.edges || filteredInstances.edges.length === 0`. -/
def emptyInstances : Option (Connection InstanceEdge) → Bool
  | none => true
  | some c => c.edges.isEmpty

/-- The `hasVolumeInstances` check of the final project filter:
`volumes?.edges?.some(ve => ve?.node?.volumeInstances?.edges?.length) ||
 environments?.edges?.some(ee => ee?.node?.volumeInstances?.edges?.length)`. -/
def hasVolumeInstances (n : VolProjectNode) : Bool :=
  (match n.volumes with
   | some c => c.edges.any fun ve =>
       match ve.node with
       | some vn => !(emptyInstances vn.volumeInstances)
       | none => false
   | none => false) ||
  (match n.environments with
   | some c => c.edges.any fun ee =>
       match ee.node with
       | some en => !(emptyInstances en.volumeInstances)
       | none => false
   | none => false)

/-- Volume-edge rewrite inside `filterProjectConnection`: a volume edge is
dropped when it has no node, or when a service/environment filter is active
and its filtered instance list is empty. -/
def filterVolumeEdges (sid eid : Option String) (edges : List VolumeEdge) : List VolumeEdge :=
  edges.filterMap fun ve =>
    match ve.node with
    | none => none
    | some vn =>
      let fi := filterInstanceConnection sid eid vn.volumeInstances
      if (sid.isSome || eid.isSome) && emptyInstances fi then none
      else some { ve with node := some { vn with volumeInstances := fi } }

/-- Environment-edge rewrite inside `filterProjectConnection`: edges without a
node are dropped, an active `environmentId` must match the environment id;
then instance filtering, dropping the edge when a `serviceId` filter is active
and no instances remain (edges without a `volumeInstances` field pass through). -/
def filterVolEnvEdges (sid eid : Option String) (edges : List VolEnvEdge) : List VolEnvEdge :=
  (edges.filter fun ee =>
      match ee.node with
      | none => false
      | some en => match eid with | some e => en.id == e | none => true
    ).filterMap fun ee =>
      match ee.node with
      | none => some ee
      | some en =>
        match en.volumeInstances with
        | none => some ee
        | some vi =>
          let fi := filterInstanceConnection sid eid (some vi)
          if sid.isSome && emptyInstances fi then none
          else some { ee with node := some { en with volumeInstances := fi } }

/-- Project-node rewrite inside `filterProjectConnection`. -/
def filterVolProjectNode (sid eid : Option String) (n : VolProjectNode) : VolProjectNode :=
  let n1 := match n.volumes with
    | some c => { n with volumes := some { c with edges := filterVolumeEdges sid eid c.edges } }
    | none => n
  match n1.environments with
  | some c => { n1 with environments := some { c with edges := filterVolEnvEdges sid eid c.edges } }
  | none => n1

/-- `filterProjectConnection` closure of `filterVolumesData`: filter by project
id, rewrite each node, then drop projects with no remaining volume instances
when a service or environment filter is active. -/
def filterProjectConnection (pid sid eid : Option String)
    (c : Connection VolProjectEdge) : Connection VolProjectEdge :=
  { c with edges :=
      (((c.edges.filter fun e =>
          match pid with
          | none => true
          | some p => match e.node with | some n => n.id == p | none => false
        ).map fun e =>
          match e.node with
          | none => e
          | some n => { e with node := some (filterVolProjectNode sid eid n) }
        ).filter fun e =>
          match e.node with
          | none => false
          | some n =>
            if sid.isNone && eid.isNone then true
            else hasVolumeInstances n) }

/-- Per-workspace rewrite of `filterVolumesData` (lines 370-385): replace the
`projects` connection when present, and the `team.projects` connection when
present, by their filtered versions. -/
def filterVolWorkspace (pid sid eid : Option String) (w : VolWorkspace) : VolWorkspace :=
  let w1 := match w.projects with
    | some c => { w with projects := some (filterProjectConnection pid sid eid c) }
    | none => w
  match w1.team with
  | some t =>
    (match t.projects with
     | some c => { w1 with team := some { t with projects := some (filterProjectConnection pid sid eid c) } }
     | none => w1)
  | none => w1

/-- `RailwayClient.filterVolumesData(data, filters)`. -/
def filterVolumesData (d : VolumesData) (f : Filters) : VolumesData :=
  let pid := optActive f.projectId
  let sid := optActive f.serviceId
  let eid := optActive f.environmentId
  if pid.isNone && sid.isNone && eid.isNone then d
  else
    { d with me := { d.me with workspaces := d.me.workspaces.map (filterVolWorkspace pid sid eid) } }

/-- All project edges reachable in a volumes tree, from both the direct
`workspace.projects` connection and the `workspace.team.projects` connection. -/
def workspaceProjectEdges (w : VolWorkspace) : List VolProjectEdge :=
  (match w.projects with | some c => c.edges | none => []) ++
  (match w.team with
   | some t => (match t.projects with | some c => c.edges | none => [])
   | none => [])

/-- All project edges of a volumes tree. -/
def allVolProjectEdges (d : VolumesData) : List VolProjectEdge :=
  d.me.workspaces.flatMap workspaceProjectEdges

/-! ## `RailwayClient.fetchDashboardData` (query-railway.js lines 396-523)

The network calls are modelled by passing in each query's outcome as an
`Except String _` value (the string is the thrown error message).  The code
outside the four per-query `try` blocks (e.g. `fs.readFileSync` of the query
documents) can also throw; a throw there is modelled by the `topLevel`
argument and lands in the outer `catch`. -/

structure EventLogEntry where
  timestamp : Nat
  message : String
  severity : String
  deriving Repr, DecidableEq

structure EventLogsData where
  environmentLogs : List EventLogEntry
  deriving Repr, DecidableEq

structure ErrorInfo where
  message : String
  type : String
  deriving Repr, DecidableEq

/-- `queryInfo` object built by `fetchDashboardData`: it carries only `errors`
and `eventLogsQueryUsed`.  The `filters` field is modelled as an `Option`
because `extractComprehensiveData` probes `queryInfo?.filters` even though
`fetchDashboardData` never sets it (always `none` here). -/
structure QueryInfo where
  errors : List String
  eventLogsQueryUsed : String
  filters : Option Filters
  deriving Repr, DecidableEq

structure DashboardData where
  projects : ProjectsData
  deployments : DeploymentsData
  volumes : VolumesData
  eventLogs : EventLogsData
  eventLogsEnvironmentId : Option String
  queryInfo : QueryInfo
  deriving Repr, DecidableEq

structure DashboardSnapshot where
  success : Bool
  data : Option DashboardData
  error : Option ErrorInfo
  deriving Repr, DecidableEq

/-- Fallback `{me: {workspaces: []}}` for the projects query. -/
def emptyProjectsData : ProjectsData := { me := { workspaces := [] } }

/-- Fallback `{deployments: {edges: []}}` for the deployments query. -/
def emptyDeploymentsData : DeploymentsData := { deployments := { edges := [] } }

/-- Fallback `{me: {workspaces: []}}` for the volumes query. -/
def emptyVolumesData : VolumesData := { me := { workspaces := [] } }

/-- Fallback `{environmentLogs: []}` for the event-logs query. -/
def emptyEventLogsData : EventLogsData := { environmentLogs := [] }

/-- `RailwayClient.fetchDashboardData(terminusLogsEnvId, filters)`. -/
def fetchDashboardData
    (projectsResult : Except String ProjectsData)
    (deploymentsResult : Except String DeploymentsData)
    (volumeResult : Except String VolumesData)
    (eventLogsResult : Except String EventLogsData)
    (terminusLogsEnvId : Option String)
    (filters : Filters)
    (topLevel : Option String) : DashboardSnapshot :=
  match topLevel with
  | some msg => { success := false, data := none, error := some { message := msg, type := "API_ERROR" } }
  | none =>
    let projectsStep := match projectsResult with
      | .ok d => (d, ([] : List String))
      | .error _ => (emptyProjectsData, ["Projects query failed"])
    let deploymentsStep := match deploymentsResult with
      | .ok d => (d, ([] : List String))
      | .error _ => (emptyDeploymentsData, ["Deployments query failed"])
    let volumeStep := match volumeResult with
      | .ok d => (d, ([] : List String))
      | .error _ => (emptyVolumesData, ["Volumes query failed"])
    let eventLogsStep :=
      match optActive terminusLogsEnvId with
      | some _ =>
        (match eventLogsResult with
         | .ok d => (d, "full")
         | .error _ => (emptyEventLogsData, "empty"))
      | none => (emptyEventLogsData, "skipped")
    let queryErrors := projectsStep.2 ++ deploymentsStep.2 ++ volumeStep.2
    { success := true
      data := some
        { projects := filterProjectsData projectsStep.1 filters
          deployments := filterDeploymentsData deploymentsStep.1 filters
          volumes := filterVolumesData volumeStep.1 filters
          eventLogs := eventLogsStep.1
          eventLogsEnvironmentId := terminusLogsEnvId
          queryInfo :=
            { errors := queryErrors
              eventLogsQueryUsed := eventLogsStep.2
              filters := none } }
      error := none }

/-! ## `authenticateToken` and routing (server.js lines 20-57) -/

/-- `split(' ')` over a character list: split at every single separator
occurrence, keeping empty segments, as the JS `String.prototype.split`. -/
def splitChars (sep : Char) : List Char → List (List Char)
  | [] => [[]]
  | c :: rest =>
    let r := splitChars sep rest
    if c = sep then [] :: r
    else
      match r with
      | [] => [[c]]
      | h :: t => (c :: h) :: t

/-- JS `s.split(sep)` for a one-character separator. -/
def jsSplit (sep : Char) (s : String) : List String :=
  (splitChars sep s.toList).map List.asString

/-- `authHeader && authHeader.split(' ')[1]` — the token after the first
space, or nothing. -/
def bearerToken (authHeader : Option String) : Option String :=
  authHeader.bind fun h => (jsSplit ' ' h).get? 1

inductive AuthOutcome where
  | pass : AuthOutcome
  | fail : Nat → AuthOutcome
  deriving Repr, DecidableEq

/-- `authenticateToken(req, res, next)`: 401 when no (truthy) token in the
header, 500 when `TERMINUS_AUTH_TOKEN` is unset (or empty, JS falsy), 403 on
string inequality, otherwise pass through to the handler. -/
def authenticateToken (authHeader : Option String) (expectedToken : Option String) : AuthOutcome :=
  match optActive (bearerToken authHeader) with
  | none => .fail 401
  | some token =>
    match optActive expectedToken with
    | none => .fail 500
    | some expected => if token != expected then .fail 403 else .pass

/-- Status code produced by the server's route table for a request: `/health`
carries no middleware and answers 200; `/`, `/api/data`, `/debug`,
`/debug/advanced` run `authenticateToken` first and, on pass, answer with the
handler's own status (`handlerStatus` parameter); everything else is the 404
handler. -/
def routeStatus (path : String) (authHeader : Option String)
    (expectedToken : Option String) (handlerStatus : Nat) : Nat :=
  if path = "/health" then 200
  else if path = "/" || path = "/api/data" || path = "/debug" || path = "/debug/advanced" then
    match authenticateToken authHeader expectedToken with
    | .fail s => s
    | .pass => handlerStatus
  else 404

/-! ## `DashboardGenerator.extractComprehensiveData` (generate-html.js lines 101-264) -/

/-- One step of building the deployment lookup (generate-html.js lines
126-133): key `service.id + "-" + deployment.environmentId`; an existing
entry is replaced only when the new `createdAt` is strictly later.  The map
is an association list whose `lookup` finds the most recent binding. -/
def dmInsert (m : List (String × DeploymentNode)) (svcId : String)
    (d : DeploymentNode) : List (String × DeploymentNode) :=
  let key := svcId ++ "-" ++ d.environmentId
  match m.lookup key with
  | none => (key, d) :: m
  | some old => if old.createdAt < d.createdAt then (key, d) :: m else m

/-- The deployment lookup built from a traversal-ordered list of
(owning service id, deployment) pairs. -/
def buildDeploymentMap (items : List (String × DeploymentNode)) : List (String × DeploymentNode) :=
  items.foldl (fun m p => dmInsert m p.1 p.2) []

/-- The nested `for` loops of lines 117-140 linearized: every (service id,
deployment node) pair of the deployments tree, in traversal order. -/
def deploymentItems (d : ProjectsData) : List (String × DeploymentNode) :=
  d.me.workspaces.flatMap fun w =>
    w.team.projects.edges.flatMap fun pe =>
      (optEdges pe.node.services).flatMap fun se =>
        (optEdges se.node.deployments).map fun de => (se.node.id, de.node)

/-- `deploymentMap` of `extractComprehensiveData`. -/
def deploymentMap (d : ProjectsData) : List (String × DeploymentNode) :=
  buildDeploymentMap (deploymentItems d)

/-- A deployment row pushed into `serviceData.deployments`
(`{...deployment, environmentName: env.name, environmentId: env.id}`). -/
structure DeploymentRow where
  base : DeploymentNode
  environmentName : String
  environmentId : String
  deriving Repr, DecidableEq

structure ServiceData where
  id : String
  name : String
  deployments : List DeploymentRow
  deriving Repr, DecidableEq

/-- The services array built for one project (generate-html.js lines
165-195): services in edge order, each joined against the project's
environments through the deployment lookup. -/
def extractProjectServices (dm : List (String × DeploymentNode)) (p : ProjectNode) :
    List ServiceData :=
  (optEdges p.services).map fun se =>
    { id := se.node.id
      name := se.node.name
      deployments := (optEdges p.environments).filterMap fun ee =>
        (dm.lookup (se.node.id ++ "-" ++ ee.node.id)).map fun dep =>
          { base := dep, environmentName := ee.node.name, environmentId := ee.node.id } }

/-- `eventLogs.sort((a, b) => new Date(b.timestamp) - new Date(a.timestamp))`
(generate-html.js line 260): sort newest-first by parsed timestamp. -/
def sortEventLogs (logs : List EventLogEntry) : List EventLogEntry :=
  logs.insertionSort fun a b => b.timestamp ≤ a.timestamp

/-- Event-log extraction (generate-html.js lines 252-261): project each raw
log to `{timestamp, message, severity}` (identity in this typed model), then
sort newest-first. -/
def extractEventLogs (d : EventLogsData) : List EventLogEntry :=
  sortEventLogs d.environmentLogs

/-- `hasFilters` (generate-html.js lines 111-113):
`queryInfo?.filters?.projectId || queryInfo?.filters?.serviceId || queryInfo?.filters?.environmentId`,
used as a boolean. -/
def extractHasFilters (dd : DashboardData) : Bool :=
  (optActive (dd.queryInfo.filters.bind Filters.projectId)).isSome ||
  (optActive (dd.queryInfo.filters.bind Filters.serviceId)).isSome ||
  (optActive (dd.queryInfo.filters.bind Filters.environmentId)).isSome

/-! ## `DashboardGenerator.generateComprehensiveHTML` fragments
(generate-html.js lines 537 and 555) -/

/-- The subtitle `${workspaceTitle}${hasFilters ? ' (Filtered)' : ''}`. -/
def subtitleText (workspaceTitle : String) (hasFilters : Bool) : String :=
  workspaceTitle ++ (if hasFilters then " (Filtered)" else "")

/-- The service label
`${hasFilters ? service.serviceName : service.projectName + "/" + service.serviceName}`. -/
def serviceDisplayName (hasFilters : Bool) (projectName serviceName : String) : String :=
  if hasFilters then serviceName else projectName ++ "/" ++ serviceName

/-! ## `extractEventAction` (generate-html.js lines 54-89) and
`src/config/event-logs.js` -/

/-- First match of the configured regex `/\[([^\]]+)\]/` over a character
list: leftmost `[`, a non-empty maximal run of non-`]` characters, then `]`;
the capture is the run.  On failure at one position, matching resumes at the
next position, as the regex engine does. -/
def bracketCapture : List Char → Option (List Char)
  | [] => none
  | c :: rest =>
    if c = '[' then
      let run := rest.takeWhile (fun ch => ch ≠ ']')
      if run.isEmpty then bracketCapture rest
      else if (rest.drop run.length).head? = some ']' then some run
      else bracketCapture rest
    else bracketCapture rest

/-- `message.match(/\[([^\]]+)\]/)` restricted to its first capture group. -/
def displayRegexBracket (s : String) : Option String :=
  (bracketCapture s.toList).map List.asString

/-- The configuration record of `src/config/event-logs.js`, with the regex
modelled as its first-capture matcher and the custom function as an
`Except` (a user-supplied function may throw). -/
structure EventLogsConfig where
  displayAlgorithm : String
  displayRegexMatch : String → Option String
  customDisplayFunction : String → Except String String
  fallbackMaxLength : Nat

/-- The truncation fallback
`message.length > fallbackMaxLength ? message.substring(0, fallbackMaxLength) + '...' : message`. -/
def truncFallback (maxLen : Nat) (message : String) : String :=
  if maxLen < message.length then message.take maxLen ++ "..." else message

/-- `customDisplayFunction` of `src/config/event-logs.js`: everything after
the first colon, trimmed, when a colon occurs before the last character;
otherwise the first 30 characters plus an ellipsis. -/
def configCustomDisplay (message : String) : Except String String :=
  let cs := message.toList
  let rec go : List Char → Except String String
    | [] => .ok (message.take 30 ++ "...")
    | ':' :: rest =>
      if rest.isEmpty then .ok (message.take 30 ++ "...")
      else .ok (rest.asString.trim)
    | _ :: rest => go rest
  go cs

/-- The shipped `eventLogsConfig`: `displayAlgorithm: 'regex'`,
`displayRegex: /\[([^\]]+)\]/`, `fallback.maxLength: 30`. -/
def railwayEventLogsConfig : EventLogsConfig :=
  { displayAlgorithm := "regex"
    displayRegexMatch := displayRegexBracket
    customDisplayFunction := configCustomDisplay
    fallbackMaxLength := 30 }

/-- `DashboardGenerator.extractEventAction(message)`: the `switch` over the
configured algorithm inside a `try`; any error thrown by the selected
strategy is caught and answered with the truncation fallback. -/
def extractEventAction (cfg : EventLogsConfig) (message : String) : String :=
  let fb := truncFallback cfg.fallbackMaxLength message
  let run : Except String String :=
    if cfg.displayAlgorithm = "regex" then
      .ok (match cfg.displayRegexMatch message with
           | some m => if m.isEmpty then fb else m
           | none => fb)
    else if cfg.displayAlgorithm = "custom" then
      match cfg.customDisplayFunction message with
      | .ok r => .ok (if r.isEmpty then fb else r)
      | .error e => .error e
    else
      .ok (match cfg.displayRegexMatch message with
           | some m => if m.isEmpty then message.take cfg.fallbackMaxLength ++ "..." else m
           | none => message.take cfg.fallbackMaxLength ++ "...")
  match run with
  | .ok s => s
  | .error _ => fb

/-- All (owning service node, deployment edge) pairs of a projects tree, in
traversal order. -/
def serviceDeployPairs (d : ProjectsData) : List (ServiceNode × DeploymentEdge) :=
  d.me.workspaces.flatMap fun w =>
    w.team.projects.edges.flatMap fun pe =>
      (optEdges pe.node.services).flatMap fun se =>
        (optEdges se.node.deployments).map fun de => (se.node, de)

/-! # Sample data used by witnesses and counterexamples -/

/-- A projects tree with a single workspace/project holding one service with
the given deployment edges and no environments connection. -/
def singleServiceTree (svcId : String) (ds : List DeploymentEdge) : ProjectsData :=
  { me := { workspaces := [
      { name := "ws", team := { projects := { edges := [
          { node := { id := "p1", name := "proj"
                      services := some { edges := [
                        { node := { id := svcId, name := "svc"
                                    deployments := some { edges := ds } } } ] }
                      environments := none } } ] } } } ] } }

/-! # Theorems -/

/-- C5: filtering with an empty filter (all of `projectId`, `serviceId`,
`environmentId` absent or empty strings) is the identity on every input tree,
for each of the four filter methods. -/
theorem emptyFilter_identity (f : Filters)
    (hp : optActive f.projectId = none)
    (hs : optActive f.serviceId = none)
    (he : optActive f.environmentId = none) :
    (∀ d : ProjectsData, filterData d f = d) ∧
    (∀ d : ProjectsData, filterProjectsData d f = d) ∧
    (∀ d : DeploymentsData, filterDeploymentsData d f = d) ∧
    (∀ d : VolumesData, filterVolumesData d f = d) := by
  refine ⟨fun d => ?_, fun d => ?_, fun d => ?_, fun d => ?_⟩ <;>
    simp [filterData, filterProjectsData, filterDeploymentsData, filterVolumesData, hp, hs, he]

/-- C5 witness: the identity holds at a concrete tree with a filter whose
fields are an empty string and two absent values. -/
theorem emptyFilter_identity_witness :
    filterData (singleServiceTree "s1" []) { projectId := some "", serviceId := none, environmentId := none }
      = singleServiceTree "s1" [] ∧
    filterVolumesData emptyVolumesData { projectId := some "", serviceId := none, environmentId := none }
      = emptyVolumesData := by
  have h := emptyFilter_identity
    { projectId := some "", serviceId := none, environmentId := none }
    (by decide) (by decide) (by decide)
  exact ⟨h.1 _, h.2.2.2 _⟩

/-- C3: auth boundary of the HTTP surface.  A request to `/` whose
`Authorization` header yields no bearer token is answered 401 (this check runs
first, so it wins even when the server token is unconfigured); a request to
`/` carrying a token while `TERMINUS_AUTH_TOKEN` is unset is answered 500; a
request to `/` carrying a token that is not string-equal to the configured
expected token is answered 403; `/health` with no header is answered 200
whatever the handler or configuration. -/
theorem auth_boundary (authHeader expected : Option String) (handlerStatus : Nat) :
    (optActive (bearerToken authHeader) = none →
      routeStatus "/" authHeader expected handlerStatus = 401) ∧
    (∀ t, optActive (bearerToken authHeader) = some t → optActive expected = none →
      routeStatus "/" authHeader expected handlerStatus = 500) ∧
    (∀ t e, optActive (bearerToken authHeader) = some t → optActive expected = some e →
      t ≠ e → routeStatus "/" authHeader expected handlerStatus = 403) ∧
    routeStatus "/health" none expected handlerStatus = 200 := by
  refine ⟨fun h => ?_, fun t ht he => ?_, fun t e ht he hne => ?_, ?_⟩ <;>
    simp [routeStatus, authenticateToken, *]

/-- C3 witness: concrete requests exercising all four branches. -/
theorem auth_boundary_witness :
    routeStatus "/" none (some "secret") 200 = 401 ∧
    routeStatus "/" (some "Bearer abc") none 200 = 500 ∧
    routeStatus "/" (some "Bearer abc") (some "secret") 200 = 403 ∧
    routeStatus "/health" none (some "secret") 200 = 200 := by
  refine ⟨?_, ?_, ?_, ?_⟩
  · exact (auth_boundary none (some "secret") 200).1 (by decide)
  · exact (auth_boundary (some "Bearer abc") none 200).2.1 "abc" (by decide) (by decide)
  · exact (auth_boundary (some "Bearer abc") (some "secret") 200).2.2.1 "abc" "secret"
      (by decide) (by decide) (by decide)
  · exact (auth_boundary none (some "secret") 200).2.2.2

/-- C6: the deployment lookup of `extractComprehensiveData` is
last-write-wins by `createdAt`.  For a tree whose one service carries two
deployments with the same `(serviceId, environmentId)` key and strictly
ordered timestamps, the lookup keyed by `serviceId + "-" + environmentId`
holds the later deployment, in either insertion order. -/
theorem latest_deployment_join (svc : String) (d1 d2 : DeploymentNode)
    (henv : d1.environmentId = d2.environmentId)
    (hlt : d1.createdAt < d2.createdAt) :
    (deploymentMap (singleServiceTree svc [{ node := d1 }, { node := d2 }])).lookup
        (svc ++ "-" ++ d1.environmentId) = some d2 ∧
    (deploymentMap (singleServiceTree svc [{ node := d2 }, { node := d1 }])).lookup
        (svc ++ "-" ++ d1.environmentId) = some d2 := by
  have hnlt : ¬ d2.createdAt < d1.createdAt := Nat.lt_asymm hlt
  have hitems1 : deploymentItems (singleServiceTree svc [{ node := d1 }, { node := d2 }])
      = [(svc, d1), (svc, d2)] := by
    simp [deploymentItems, singleServiceTree, optEdges]
  have hitems2 : deploymentItems (singleServiceTree svc [{ node := d2 }, { node := d1 }])
      = [(svc, d2), (svc, d1)] := by
    simp [deploymentItems, singleServiceTree, optEdges]
  constructor
  · simp [deploymentMap, hitems1, buildDeploymentMap, dmInsert, henv, hlt, List.lookup]
  · simp [deploymentMap, hitems2, buildDeploymentMap, dmInsert, henv, hnlt, List.lookup]

/-- C6 witness: two concrete deployments for the same key. -/
theorem latest_deployment_join_witness :
    (deploymentMap (singleServiceTree "s1"
        [{ node := { id := "a", status := "SUCCESS", createdAt := 10, environmentId := "e1", environment := none } },
         { node := { id := "b", status := "FAILED", createdAt := 20, environmentId := "e1", environment := none } }])).lookup "s1-e1"
      = some { id := "b", status := "FAILED", createdAt := 20, environmentId := "e1", environment := none } := by
  have h := latest_deployment_join "s1"
    { id := "a", status := "SUCCESS", createdAt := 10, environmentId := "e1", environment := none }
    { id := "b", status := "FAILED", createdAt := 20, environmentId := "e1", environment := none }
    (by decide) (by decide)
  exact h.1

/-- Instances letting Mathlib's sortedness lemma apply to the comparator
`(a, b) => new Date(b.timestamp) - new Date(a.timestamp)`. -/
instance : IsTotal EventLogEntry (fun a b => b.timestamp ≤ a.timestamp) :=
  ⟨fun a b => Nat.le_total b.timestamp a.timestamp⟩

instance : IsTrans EventLogEntry (fun a b => b.timestamp ≤ a.timestamp) :=
  ⟨fun _ _ _ hab hbc => Nat.le_trans hbc hab⟩

/-- C7: the flattened event-log list is sorted newest-first by timestamp and
is a permutation of the input rows; in particular an input in order
`[T1, T3, T2]` with `T1 < T2 < T3` is emitted as `[T3, T2, T1]`.  The other
flattened siblings are not reordered: the services array of a project keeps
the service edges' order (witnessed on the ids). -/
theorem event_ordering :
    (∀ d : EventLogsData,
      List.Sorted (fun a b => b.timestamp ≤ a.timestamp) (extractEventLogs d)) ∧
    (∀ d : EventLogsData, (extractEventLogs d).Perm d.environmentLogs) ∧
    (∀ e1 e2 e3 : EventLogEntry, e1.timestamp < e2.timestamp → e2.timestamp < e3.timestamp →
      extractEventLogs { environmentLogs := [e1, e3, e2] } = [e3, e2, e1]) ∧
    (∀ (dm : List (String × DeploymentNode)) (p : ProjectNode),
      (extractProjectServices dm p).map ServiceData.id
        = (optEdges p.services).map fun se => se.node.id) := by
  refine ⟨fun d => ?_, fun d => ?_, fun e1 e2 e3 h12 h23 => ?_, fun dm p => ?_⟩
  · exact List.sorted_insertionSort _ _
  · exact List.perm_insertionSort _ _
  · have ha : e2.timestamp ≤ e3.timestamp := Nat.le_of_lt h23
    have hb : ¬ e3.timestamp ≤ e1.timestamp := Nat.not_le.mpr (Nat.lt_trans h12 h23)
    have hc : ¬ e2.timestamp ≤ e1.timestamp := Nat.not_le.mpr h12
    simp [extractEventLogs, sortEventLogs, ha, hb, hc]
  · simp [extractProjectServices]

/-- C7 witness: concrete timestamps 1 < 2 < 3 in arrival order [1, 3, 2]. -/
theorem event_ordering_witness :
    extractEventLogs { environmentLogs :=
        [{ timestamp := 1, message := "m1", severity := "info" },
         { timestamp := 3, message := "m3", severity := "info" },
         { timestamp := 2, message := "m2", severity := "info" }] }
      = [{ timestamp := 3, message := "m3", severity := "info" },
         { timestamp := 2, message := "m2", severity := "info" },
         { timestamp := 1, message := "m1", severity := "info" }] :=
  event_ordering.2.2.1
    { timestamp := 1, message := "m1", severity := "info" }
    { timestamp := 2, message := "m2", severity := "info" }
    { timestamp := 3, message := "m3", severity := "info" }
    (by decide) (by decide)

/-- C8: under the shipped configuration (`displayAlgorithm: 'regex'`,
`fallback.maxLength: 30`), a message the bracket regex does not match that is
longer than 30 characters is answered with its 30-character prefix plus an
ellipsis; and for any configuration, when the selected strategy throws during
evaluation (the user-supplied custom function), `extractEventAction` catches
the error and answers the truncation fallback instead of propagating. -/
theorem truncation_fallback :
    (∀ message : String, displayRegexBracket message = none → 30 < message.length →
      extractEventAction railwayEventLogsConfig message = message.take 30 ++ "...") ∧
    (∀ (cfg : EventLogsConfig) (message e : String), cfg.displayAlgorithm = "custom" →
      cfg.customDisplayFunction message = .error e →
      extractEventAction cfg message = truncFallback cfg.fallbackMaxLength message) := by
  constructor
  · intro message hnm hlen
    simp [extractEventAction, railwayEventLogsConfig, hnm, truncFallback, hlen]
  · intro cfg message e halg herr
    simp [extractEventAction, halg, herr]

set_option maxRecDepth 16384 in
/-- C8 witness: a 31-character bracketless message is truncated to 30
characters plus an ellipsis, and an erroring custom strategy is caught. -/
theorem truncation_fallback_witness :
    extractEventAction railwayEventLogsConfig "abcdefghijklmnopqrstuvwxyz01234"
      = "abcdefghijklmnopqrstuvwxyz0123" ++ "..." ∧
    extractEventAction
      { displayAlgorithm := "custom"
        displayRegexMatch := displayRegexBracket
        customDisplayFunction := fun _ => .error "boom"
        fallbackMaxLength := 5 } "hello world"
      = truncFallback 5 "hello world" := by
  constructor
  · have h := truncation_fallback.1 "abcdefghijklmnopqrstuvwxyz01234" (by decide) (by decide)
    simpa using h
  · exact truncation_fallback.2
      { displayAlgorithm := "custom"
        displayRegexMatch := displayRegexBracket
        customDisplayFunction := fun _ => .error "boom"
        fallbackMaxLength := 5 } "hello world" "boom" rfl rfl

/-- C10: a snapshot built by `fetchDashboardData` carries a `queryInfo` with
only `errors` and `eventLogsQueryUsed` (no `filters` field), so
`extractComprehensiveData` computes a falsy `hasFilters` even when a
project/service/environment filter was applied; consequently the generated
HTML subtitle never gains the " (Filtered)" suffix and the service label is
always the `projectName/serviceName` form. -/
theorem no_filters_in_queryInfo
    (pr : Except String ProjectsData) (dr : Except String DeploymentsData)
    (vr : Except String VolumesData) (er : Except String EventLogsData)
    (env : Option String) (f : Filters) :
    ∃ dd, (fetchDashboardData pr dr vr er env f none).data = some dd ∧
      dd.queryInfo.filters = none ∧
      extractHasFilters dd = false ∧
      (∀ title : String, subtitleText title (extractHasFilters dd) = title) ∧
      (∀ pn sn : String, serviceDisplayName (extractHasFilters dd) pn sn = pn ++ "/" ++ sn) := by
  refine ⟨_, rfl, rfl, rfl, fun title => ?_, fun pn sn => ?_⟩
  · simp [subtitleText, extractHasFilters, optActive]
  · simp [serviceDisplayName, extractHasFilters, optActive]

/-- C2 counterexample: when the event-logs query is the one that throws
(token valid, logs environment set), the snapshot still succeeds and the
fallback is substituted, but `queryInfo.errors` is `[]` — the failed query's
name is NOT listed there; only `eventLogsQueryUsed = "empty"` records it.
This refutes the claim that every failed query's name appears in `errors`. -/
theorem failure_snapshot_counterexample :
    (fetchDashboardData (.ok emptyProjectsData) (.ok emptyDeploymentsData)
        (.ok emptyVolumesData) (.error "boom") (some "env-1")
        { projectId := none, serviceId := none, environmentId := none } none).success = true ∧
    (fetchDashboardData (.ok emptyProjectsData) (.ok emptyDeploymentsData)
        (.ok emptyVolumesData) (.error "boom") (some "env-1")
        { projectId := none, serviceId := none, environmentId := none } none).data.map
      (fun dd => dd.queryInfo.errors) = some [] ∧
    (fetchDashboardData (.ok emptyProjectsData) (.ok emptyDeploymentsData)
        (.ok emptyVolumesData) (.error "boom") (some "env-1")
        { projectId := none, serviceId := none, environmentId := none } none).data.map
      (fun dd => (dd.eventLogs, dd.queryInfo.eventLogsQueryUsed))
      = some (emptyEventLogsData, "empty") := by
  refine ⟨rfl, ?_, ?_⟩ <;> rfl

/-- C2 (amended): with a constructed client, a snapshot's `success` is `false`
exactly when code outside the four per-query try blocks throws; each failing
query is replaced by its documented empty-shape fallback; the projects,
deployments and volumes failures are listed by name in `queryInfo.errors`,
while an event-logs failure is recorded as `eventLogsQueryUsed = "empty"` and
is not added to `errors`. -/
theorem failure_snapshot
    (pr : Except String ProjectsData) (dr : Except String DeploymentsData)
    (vr : Except String VolumesData) (er : Except String EventLogsData)
    (env : Option String) (f : Filters) :
    ((fetchDashboardData pr dr vr er env f none).success = true) ∧
    (∀ m, (fetchDashboardData pr dr vr er env f (some m)).success = false ∧
      (fetchDashboardData pr dr vr er env f (some m)).error
        = some { message := m, type := "API_ERROR" }) ∧
    (∀ e, ∃ dd, (fetchDashboardData (.error e) dr vr er env f none).data = some dd ∧
        dd.projects = filterProjectsData emptyProjectsData f ∧
        "Projects query failed" ∈ dd.queryInfo.errors) ∧
    (∀ e, ∃ dd, (fetchDashboardData pr (.error e) vr er env f none).data = some dd ∧
        dd.deployments = filterDeploymentsData emptyDeploymentsData f ∧
        "Deployments query failed" ∈ dd.queryInfo.errors) ∧
    (∀ e, ∃ dd, (fetchDashboardData pr dr (.error e) er env f none).data = some dd ∧
        dd.volumes = filterVolumesData emptyVolumesData f ∧
        "Volumes query failed" ∈ dd.queryInfo.errors) ∧
    (∀ (p0 : ProjectsData) (d0 : DeploymentsData) (v0 : VolumesData) (e : String),
      (optActive env).isSome →
      ∃ dd, (fetchDashboardData (.ok p0) (.ok d0) (.ok v0) (.error e) env f none).data = some dd ∧
        dd.eventLogs = emptyEventLogsData ∧
        dd.queryInfo.eventLogsQueryUsed = "empty" ∧
        dd.queryInfo.errors = []) := by
  refine ⟨rfl, fun m => ⟨rfl, rfl⟩, fun e => ⟨_, rfl, ?_, ?_⟩, fun e => ⟨_, rfl, ?_, ?_⟩,
    fun e => ⟨_, rfl, ?_, ?_⟩, fun p0 d0 v0 e henv => ?_⟩
  · rfl
  · simp [fetchDashboardData]
  · rfl
  · simp [fetchDashboardData]
  · rfl
  · simp [fetchDashboardData]
  · obtain ⟨envId, henvId⟩ := Option.isSome_iff_exists.mp henv
    exact ⟨_, rfl, by simp [fetchDashboardData, henvId], by simp [fetchDashboardData, henvId], rfl⟩

/-- C2 witness: all hypotheses of the amended theorem discharged at concrete
inputs. -/
theorem failure_snapshot_witness :
    ((fetchDashboardData (.error "x") (.ok emptyDeploymentsData) (.ok emptyVolumesData)
        (.ok emptyEventLogsData) none
        { projectId := none, serviceId := none, environmentId := none } none).success = true) ∧
    ((fetchDashboardData (.error "x") (.ok emptyDeploymentsData) (.ok emptyVolumesData)
        (.ok emptyEventLogsData) none
        { projectId := none, serviceId := none, environmentId := none } (some "down")).success = false) ∧
    (∃ dd, (fetchDashboardData (.ok emptyProjectsData) (.ok emptyDeploymentsData)
        (.ok emptyVolumesData) (.error "y") (some "env-1")
        { projectId := none, serviceId := none, environmentId := none } none).data = some dd ∧
      dd.queryInfo.eventLogsQueryUsed = "empty" ∧ dd.queryInfo.errors = []) := by
  have h := failure_snapshot (.error "x") (.ok emptyDeploymentsData) (.ok emptyVolumesData)
    (.ok emptyEventLogsData) none { projectId := none, serviceId := none, environmentId := none }
  have h2 := failure_snapshot (.ok emptyProjectsData) (.ok emptyDeploymentsData)
    (.ok emptyVolumesData) (.error "y") (some "env-1")
    { projectId := none, serviceId := none, environmentId := none }
  obtain ⟨dd, hdd, _, hused, herrs⟩ :=
    h2.2.2.2.2.2 emptyProjectsData emptyDeploymentsData emptyVolumesData "y" (by decide)
  exact ⟨h.1, (h.2.1 "down").1, dd, hdd, hused, herrs⟩

/-- The `serviceId`/`environmentId` filter used by the C1 scenario. -/
def c1Filters : Filters :=
  { projectId := none, serviceId := some "s1", environmentId := some "prod" }

/-- A tree whose only service matches the service filter and whose only
deployment edge carries no `environment` object. -/
def c1Tree : ProjectsData :=
  singleServiceTree "s1"
    [{ node := { id := "d1", status := "SUCCESS", createdAt := 1,
                 environmentId := "e-prod", environment := none } }]

set_option maxRecDepth 16384 in
/-- C1 counterexample: filtering `c1Tree` with both `serviceId = "s1"` and
`environmentId = "prod"` set keeps a deployment edge whose `environment`
field is absent — an edge whose environment does not match `environmentId`
(by name or id) survives, refuting the claim that only matching deployment
edges are yielded.  (`filterData` skips the environment comparison when
`deployment.environment` is missing.) -/
theorem service_env_composition_counterexample :
    ((serviceDeployPairs (filterData c1Tree c1Filters)).map fun pr =>
        (pr.1.id, pr.2.node.environment)) = [("s1", none)] ∧
    ¬ ((serviceDeployPairs (filterData c1Tree c1Filters)).all fun pr =>
        match pr.2.node.environment with
        | some env => env.name == "prod" || env.id == "prod"
        | none => false) = true := by
  exact ⟨rfl, by decide⟩

/-- C1 (amended): with both `serviceId` and `environmentId` active,
`filterData` yields only deployment edges whose owning service matches
`serviceId` and which, WHEN they carry an `environment` object, have its
`name` equal to `environmentId`; deployment edges without an `environment`
object are also retained. -/
theorem service_env_composition (d : ProjectsData) (f : Filters) (s e : String)
    (hs : optActive f.serviceId = some s) (he : optActive f.environmentId = some e) :
    ∀ pr ∈ serviceDeployPairs (filterData d f),
      pr.1.id = s ∧ ∀ env, pr.2.node.environment = some env → env.name = e := by
  intro pr hpr
  have hfd : filterData d f =
      { d with me := { d.me with workspaces := d.me.workspaces.map (filterWorkspace (optActive f.projectId) (some s) (some e)) } } := by
    simp [filterData, hs, he]
  rw [hfd] at hpr
  simp only [serviceDeployPairs] at hpr
  rw [List.mem_flatMap] at hpr
  obtain ⟨w, hw, hpr⟩ := hpr
  rw [List.mem_map] at hw
  obtain ⟨w0, hw0, rfl⟩ := hw
  simp only [filterWorkspace] at hpr
  rw [List.mem_flatMap] at hpr
  obtain ⟨pe, hpe, hpr⟩ := hpr
  rw [List.mem_map] at hpe
  obtain ⟨pe0, hpe0, rfl⟩ := hpe
  simp only [filterProjNode] at hpr
  cases hsvcs : pe0.node.services with
  | none => rw [hsvcs] at hpr; simp [optEdges] at hpr
  | some c =>
    rw [hsvcs] at hpr
    simp only [Option.map_some', optEdges] at hpr
    rw [List.mem_flatMap] at hpr
    obtain ⟨se, hse, hpr⟩ := hpr
    rw [List.mem_map] at hse
    obtain ⟨se0, hse0f, rfl⟩ := hse
    rw [List.mem_filter] at hse0f
    obtain ⟨hse0, hkeep⟩ := hse0f
    have hid : se0.node.id = s := by
      simpa [keepServiceEdge] using hkeep
    simp only [filterSvcNode] at hpr
    cases hdeps : se0.node.deployments with
    | none => rw [hdeps] at hpr; simp [optEdges] at hpr
    | some dc =>
      rw [hdeps] at hpr
      simp only [Option.map_some', optEdges] at hpr
      rw [List.mem_map] at hpr
      obtain ⟨de, hde, hpair⟩ := hpr
      rw [List.mem_filter] at hde
      obtain ⟨hde0, hkd⟩ := hde
      obtain rfl := hpair
      refine ⟨hid, fun env henv => ?_⟩
      unfold keepDeploymentEdge at hkd
      rw [henv] at hkd
      simpa using hkd

/-- The deployment edge of the C1 witness scenario: it carries a matching
environment object. -/
def c1WitnessEdge : DeploymentEdge :=
  { node := { id := "d1", status := "SUCCESS", createdAt := 1,
              environmentId := "e-prod",
              environment := some { id := "e-prod", name := "prod" } } }

/-- The (service, deployment edge) pair surviving the C1 witness filter. -/
def c1WitnessPair : ServiceNode × DeploymentEdge :=
  ({ id := "s1", name := "svc", deployments := some { edges := [c1WitnessEdge] } },
   c1WitnessEdge)

set_option maxRecDepth 16384 in
/-- C1 witness: the amended theorem applied to a concrete tree whose single
surviving deployment edge carries a matching environment object. -/
theorem service_env_composition_witness :
    c1WitnessPair.1.id = "s1" ∧
    ({ id := "e-prod", name := "prod" } : EnvironmentNode).name = "prod" := by
  have h := service_env_composition
    (singleServiceTree "s1" [c1WitnessEdge]) c1Filters "s1" "prod" (by decide) (by decide)
  have hmem := h c1WitnessPair (by decide)
  exact ⟨hmem.1, hmem.2 { id := "e-prod", name := "prod" } (by decide)⟩

/-- The project-node rewrite of the volumes filter never changes the id. -/
theorem filterVolProjectNode_id (sid eid : Option String) (n : VolProjectNode) :
    (filterVolProjectNode sid eid n).id = n.id := by
  unfold filterVolProjectNode
  cases hv : n.volumes <;> cases he : n.environments <;> simp [hv, he]

/-- Edges of a workspace after the volumes filter come exactly from filtering
its two project connections. -/
theorem workspaceProjectEdges_filterVolWorkspace (pid sid eid : Option String) (w : VolWorkspace) :
    workspaceProjectEdges (filterVolWorkspace pid sid eid w) =
      (match w.projects with
       | some c => (filterProjectConnection pid sid eid c).edges
       | none => []) ++
      (match w.team with
       | some t =>
         (match t.projects with
          | some c => (filterProjectConnection pid sid eid c).edges
          | none => [])
       | none => []) := by
  cases hp : w.projects with
  | none =>
    cases ht : w.team with
    | none => simp [filterVolWorkspace, workspaceProjectEdges, hp, ht]
    | some t =>
      cases htp : t.projects with
      | none => simp [filterVolWorkspace, workspaceProjectEdges, hp, ht, htp]
      | some c => simp [filterVolWorkspace, workspaceProjectEdges, hp, ht, htp]
  | some c0 =>
    cases ht : w.team with
    | none => simp [filterVolWorkspace, workspaceProjectEdges, hp, ht]
    | some t =>
      cases htp : t.projects with
      | none => simp [filterVolWorkspace, workspaceProjectEdges, hp, ht, htp]
      | some c => simp [filterVolWorkspace, workspaceProjectEdges, hp, ht, htp]

/-- With a service or environment filter active, every project edge kept by
`filterProjectConnection` has a node with at least one remaining volume
instance. -/
theorem mem_filterProjectConnection_hasInstances (pid sid eid : Option String)
    (c : Connection VolProjectEdge) (hact : (sid.isSome || eid.isSome) = true)
    (e : VolProjectEdge) (he : e ∈ (filterProjectConnection pid sid eid c).edges) :
    ∃ n, e.node = some n ∧ hasVolumeInstances n = true := by
  unfold filterProjectConnection at he
  rw [List.mem_filter] at he
  obtain ⟨_, hpred⟩ := he
  cases hn : e.node with
  | none => rw [hn] at hpred; simp at hpred
  | some n =>
    rw [hn] at hpred
    refine ⟨n, rfl, ?_⟩
    have hno : (sid.isNone && eid.isNone) = false := by
      cases sid <;> cases eid <;> simp_all
    rw [hno] at hpred
    simpa using hpred

/-- With only a project filter, a matching project edge always survives
`filterProjectConnection` (its node id is preserved), regardless of its
volume contents. -/
theorem filterProjectConnection_retains_matching (p : String)
    (c : Connection VolProjectEdge) (e : VolProjectEdge) (n : VolProjectNode)
    (he : e ∈ c.edges) (hn : e.node = some n) (hid : n.id = p) :
    ∃ e2 ∈ (filterProjectConnection (some p) none none c).edges,
      ∃ n2, e2.node = some n2 ∧ n2.id = p := by
  refine ⟨{ node := some (filterVolProjectNode none none n) }, ?_,
    filterVolProjectNode none none n, rfl, by rw [filterVolProjectNode_id]; exact hid⟩
  unfold filterProjectConnection
  rw [List.mem_filter]
  constructor
  · rw [List.mem_map]
    refine ⟨e, ?_, by rw [hn]⟩
    rw [List.mem_filter]
    exact ⟨he, by simp [hn, hid]⟩
  · simp

/-- C4: after `filterVolumesData`, a project with no remaining volume
instances is dropped exactly when a `serviceId` or `environmentId` filter is
active: (1) with such a filter active, every retained project edge still has
some volume instance (so all-empty projects are gone); (2) with only
`projectId` active, every matching project edge of the input is still present
in the output — even when it has zero volume instances. -/
theorem volumes_empty_project_drop (d : VolumesData) (f : Filters) :
    (((optActive f.serviceId).isSome || (optActive f.environmentId).isSome) = true →
      ∀ e ∈ allVolProjectEdges (filterVolumesData d f),
        ∃ n, e.node = some n ∧ hasVolumeInstances n = true) ∧
    (optActive f.serviceId = none → optActive f.environmentId = none →
      ∀ p, optActive f.projectId = some p →
      ∀ e ∈ allVolProjectEdges d, ∀ n, e.node = some n → n.id = p →
        ∃ e2 ∈ allVolProjectEdges (filterVolumesData d f),
          ∃ n2, e2.node = some n2 ∧ n2.id = p) := by
  constructor
  · intro hact e he
    have hcond : ((optActive f.projectId).isNone && (optActive f.serviceId).isNone &&
        (optActive f.environmentId).isNone) = false := by
      cases hs : optActive f.serviceId <;> cases hev : optActive f.environmentId <;> simp_all
    have hfd : filterVolumesData d f =
        { d with me := { d.me with workspaces := d.me.workspaces.map (filterVolWorkspace (optActive f.projectId) (optActive f.serviceId) (optActive f.environmentId)) } } := by
      unfold filterVolumesData
      simp [hcond]
    rw [hfd] at he
    unfold allVolProjectEdges at he
    rw [List.mem_flatMap] at he
    obtain ⟨w, hw, hew⟩ := he
    rw [List.mem_map] at hw
    obtain ⟨w0, hw0, rfl⟩ := hw
    rw [workspaceProjectEdges_filterVolWorkspace, List.mem_append] at hew
    rcases hew with h | h
    · cases hp : w0.projects with
      | none => rw [hp] at h; simp at h
      | some c =>
        simp only [hp] at h
        exact mem_filterProjectConnection_hasInstances _ _ _ c hact e h
    · cases ht : w0.team with
      | none => rw [ht] at h; simp at h
      | some t =>
        simp only [ht] at h
        cases htp : t.projects with
        | none => simp only [htp] at h; simp at h
        | some c =>
          simp only [htp] at h
          exact mem_filterProjectConnection_hasInstances _ _ _ c hact e h
  · intro hsid heid p hpid e he n hn hid
    have hcond : ((optActive f.projectId).isNone && (optActive f.serviceId).isNone &&
        (optActive f.environmentId).isNone) = false := by
      simp [hpid]
    have hfd : filterVolumesData d f =
        { d with me := { d.me with workspaces := d.me.workspaces.map (filterVolWorkspace (some p) none none) } } := by
      unfold filterVolumesData
      simp [hcond, hpid, hsid, heid]
    rw [hfd]
    unfold allVolProjectEdges at he ⊢
    rw [List.mem_flatMap] at he
    obtain ⟨w0, hw0, hew⟩ := he
    unfold workspaceProjectEdges at hew
    rw [List.mem_append] at hew
    have hwmem : filterVolWorkspace (some p) none none w0 ∈
        d.me.workspaces.map (filterVolWorkspace (some p) none none) :=
      List.mem_map_of_mem _ hw0
    rcases hew with h | h
    · cases hp2 : w0.projects with
      | none => rw [hp2] at h; simp at h
      | some c =>
        simp only [hp2] at h
        obtain ⟨e2, he2, n2, hn2, hid2⟩ :=
          filterProjectConnection_retains_matching p c e n h hn hid
        refine ⟨e2, ?_, n2, hn2, hid2⟩
        rw [List.mem_flatMap]
        refine ⟨filterVolWorkspace (some p) none none w0, hwmem, ?_⟩
        rw [workspaceProjectEdges_filterVolWorkspace, List.mem_append]
        left
        simp only [hp2]
        exact he2
    · cases ht : w0.team with
      | none => rw [ht] at h; simp at h
      | some t =>
        simp only [ht] at h
        cases htp : t.projects with
        | none => simp only [htp] at h; simp at h
        | some c =>
          simp only [htp] at h
          obtain ⟨e2, he2, n2, hn2, hid2⟩ :=
            filterProjectConnection_retains_matching p c e n h hn hid
          refine ⟨e2, ?_, n2, hn2, hid2⟩
          rw [List.mem_flatMap]
          refine ⟨filterVolWorkspace (some p) none none w0, hwmem, ?_⟩
          rw [workspaceProjectEdges_filterVolWorkspace, List.mem_append]
          right
          simp only [ht, htp]
          exact he2

/-- Volume instance owned by service `s1` in environment `e1`. -/
def c4Instance : VolumeInstance :=
  { serviceId := some "s1", service := none, environmentId := some "e1", environment := none }

/-- Project node of the C4 service-filter scenario: one volume with one
instance of service `s1`. -/
def c4NodeA : VolProjectNode :=
  { id := "p1"
    volumes := some { edges := [
      { node := some { id := "v1"
                       volumeInstances := some { edges := [{ node := some c4Instance }] } } } ] }
    environments := none }

/-- Its project edge. -/
def c4EdgeA : VolProjectEdge := { node := some c4NodeA }

/-- A volumes tree holding `c4EdgeA` under `workspace.projects`. -/
def c4TreeA : VolumesData :=
  { me := { workspaces := [ { projects := some { edges := [c4EdgeA] }, team := none } ] } }

def c4FilterA : Filters :=
  { projectId := none, serviceId := some "s1", environmentId := none }

/-- Project node of the C4 project-only scenario: zero volume instances. -/
def c4NodeB : VolProjectNode :=
  { id := "p1", volumes := some { edges := [] }, environments := none }

/-- Its project edge. -/
def c4EdgeB : VolProjectEdge := { node := some c4NodeB }

/-- A volumes tree holding `c4EdgeB` under `workspace.team.projects`. -/
def c4TreeB : VolumesData :=
  { me := { workspaces := [
      { projects := none, team := some { projects := some { edges := [c4EdgeB] } } } ] } }

def c4FilterB : Filters :=
  { projectId := some "p1", serviceId := none, environmentId := none }

set_option maxRecDepth 16384 in
/-- C4 witness: with a `serviceId` filter, a retained project provably still
holds a volume instance; with only a `projectId` filter, a matching project
with zero volume instances is still present in the output. -/
theorem volumes_empty_project_drop_witness :
    (∃ n, c4EdgeA.node = some n ∧ hasVolumeInstances n = true) ∧
    (∃ e2 ∈ allVolProjectEdges (filterVolumesData c4TreeB c4FilterB),
      ∃ n2, e2.node = some n2 ∧ n2.id = "p1") := by
  constructor
  · exact (volumes_empty_project_drop c4TreeA c4FilterA).1 (by decide) c4EdgeA (by decide)
  · exact (volumes_empty_project_drop c4TreeB c4FilterB).2 rfl rfl "p1" (by decide)
      c4EdgeB (by decide) c4NodeB rfl rfl

end RailwayTerminus
